import Mathlib

/-!
Verification of the `cmder` command-execution library (GiGurra/cmder).

This file gives a shallow embedding of the retry/timeout/output engine of
`cmder.go` (the current implementation variant, the first file in the source
tree) together with the helper writer in `internal/util` (the
`NewSignalForwarderWriter` file) and the builder methods of `Spec`, and proves
or refutes the specification claims about them.

Modelling conventions:
* Go `error` values are the inductive `GoError`; `errors.Is` is `errorsIs`.
* The external process is nondeterministic, so each attempt's observable
  behaviour (the error returned by `cmd.Run()`, the `ProcessState` exit code,
  the values of the `attemptTimedOut` / `jobTimedOut` atomic flags at the
  points where `withRetries` reads them, and the byte chunks the process
  writes to its two streams) is supplied by an oracle `Nat → AttemptBehavior`
  indexed by the attempt number.
* `bytes.Buffer` contents are modelled as the list of written chunks; the
  final `Result` strings are their concatenation, as produced by
  `stdoutBuffer.String()` etc. in `Run`.
* The two output streams of the process are pumped into the configured
  writers by two independent goroutines inside `os/exec` (one per stream,
  since `cmd.Stdout` and `cmd.Stderr` are distinct `io.MultiWriter` values);
  the interleaving they realise when both write to the shared
  `combinedBuffer` is a schedule parameter `sched` of the attempt behaviour.
-/

/-- Model of Go `error` values as used by cmder: `context.DeadlineExceeded`,
`context.Canceled`, an `exec.ExitError` carrying the exit status, a process
start failure (e.g. `exec.ErrNotFound`), and `fmt.Errorf("...: %w", ...)`
wrapping with a message. -/
inductive GoError where
  | deadlineExceeded : GoError
  | canceled : GoError
  | exitError : Int → GoError
  | startError : String → GoError
  | wrapf : String → GoError → GoError
deriving DecidableEq, Repr

/-- Model of Go `errors.Is`: the error equals the target, or some error in its
`%w` unwrap chain does. -/
def errorsIs : GoError → GoError → Bool
  | GoError.wrapf m inner, target =>
      decide (GoError.wrapf m inner = target) || errorsIs inner target
  | e, target => decide (e = target)

/-- Model of the Go `Error()` string of a `GoError` (the message carried by a
wrapped error, `"context deadline exceeded"` for `context.DeadlineExceeded`,
and so on). Only its role as an opaque text matters for the claims. -/
def goErrorMessage : GoError → String
  | GoError.deadlineExceeded => "context deadline exceeded"
  | GoError.canceled => "context canceled"
  | GoError.exitError code => "exit status " ++ toString code
  | GoError.startError m => m
  | GoError.wrapf m _ => m

/-- `TimeoutRetryFilter` from cmder.go lines 79-90: retry exactly when the
error is (or wraps) `context.DeadlineExceeded`, or the attempt's own timeout
flag is set. -/
def TimeoutRetryFilter (err : GoError) (isAttemptTimeout : Bool) : Bool :=
  if errorsIs err GoError.deadlineExceeded then true
  else if isAttemptTimeout then true
  else false

/-- `DefaultRetryFilter` from cmder.go lines 74-76: delegates to
`TimeoutRetryFilter`. -/
def DefaultRetryFilter (err : GoError) (isAttemptTimeout : Bool) : Bool :=
  TimeoutRetryFilter err isAttemptTimeout

/-- The two output streams of the external process. -/
inductive OutStream where
  | stdout : OutStream
  | stderr : OutStream
deriving DecidableEq, Repr

/-- Concatenation of a list of string chunks, modelling `bytes.Buffer.String()`
over the chunks accumulated by successive `Write` calls. -/
def concatAll : List String → String
  | [] => ""
  | s :: rest => s ++ concatAll rest

/-- Interleaving of the stdout-chunk queue and the stderr-chunk queue realised
by the two concurrent pipe-copier goroutines of `os/exec` when both
`io.MultiWriter`s deliver into the shared `combinedBuffer` (cmder.go lines
225-247). The schedule says which copier performed each write to the combined
buffer; each copier delivers its own stream's chunks in stream order. A
schedule entry for an exhausted queue is skipped, and chunks remaining after
the schedule is exhausted are flushed stdout-first. -/
def mergeSched : List OutStream → List String → List String → List (OutStream × String)
  | [], outs, errs =>
      outs.map (fun s => (OutStream.stdout, s)) ++ errs.map (fun s => (OutStream.stderr, s))
  | OutStream.stdout :: rest, outs, errs =>
      match outs with
      | [] => mergeSched rest [] errs
      | o :: os => (OutStream.stdout, o) :: mergeSched rest os errs
  | OutStream.stderr :: rest, outs, errs =>
      match errs with
      | [] => mergeSched rest outs []
      | e :: es => (OutStream.stderr, e) :: mergeSched rest outs es

/-- Observable behaviour of one attempt of the external process, supplied by
an oracle since the process is outside the program: the error returned by
`cmd.Run()`, whether `cmd.ProcessState` was available afterwards and the exit
code it reported, the value of the `attemptTimedOut` flag when the retry
filter is consulted (cmder.go line 358), the value of the `jobTimedOut` flag
when read at the non-retryable return (line 364), the chunks written by the
process in true chronological order, tagged with their stream, and the
interleaving schedule realised by the two pipe copiers for the combined
buffer. -/
structure AttemptBehavior where
  runErr : Option GoError
  processStateAvailable : Bool
  processExitCode : Int
  attemptTimedOut : Bool
  jobTimedOut : Bool
  writes : List (OutStream × String)
  sched : List OutStream

/-- The chunks the attempt wrote to stdout, in order. -/
def outWrites (b : AttemptBehavior) : List String :=
  b.writes.filterMap (fun w => if w.1 = OutStream.stdout then some w.2 else none)

/-- The chunks the attempt wrote to stderr, in order. -/
def errWrites (b : AttemptBehavior) : List String :=
  b.writes.filterMap (fun w => if w.1 = OutStream.stderr then some w.2 else none)

/-- The chunk sequence the combined buffer receives for this attempt: the
per-stream queues merged according to the copier schedule. -/
def combinedChunks (b : AttemptBehavior) : List String :=
  (mergeSched b.sched (outWrites b) (errWrites b)).map Prod.snd

/-- The fields of cmder's `Spec` that the retry/output engine reads, minus the
time durations themselves: the effect of the timers is already reflected in
the `attemptTimedOut` / `jobTimedOut` flags of the attempt behaviour oracle.
`hasStdOut` / `hasStdErr` model `c.StdOut != nil` / `c.StdErr != nil`. -/
structure Spec where
  app : String
  retries : Nat
  retryFilter : GoError → Bool → Bool
  collectAllOutput : Bool
  hasStdOut : Bool
  hasStdErr : Bool

/-- The mutable state threaded through `Run` (cmder.go lines 205-275): the
three capture buffers, the text delivered so far to the caller-supplied
`c.StdOut` / `c.StdErr` writers, the `attempts` counter and the `exitCode`
variable. Buffers hold their written chunks. -/
structure RunState where
  stdoutBuf : List String
  stderrBuf : List String
  combinedBuf : List String
  extraOut : List String
  extraErr : List String
  attempts : Nat
  exitCode : Int

/-- Initial state of `Run`: empty buffers, zero attempts, exit code 0. -/
def initialRunState : RunState :=
  { stdoutBuf := [], stderrBuf := [], combinedBuf := [], extraOut := [],
    extraErr := [], attempts := 0, exitCode := 0 }

/-- One execution of the processor closure of `Run` (cmder.go lines 213-261)
on attempt behaviour `b`: reset `exitCode` to 0 and bump `attempts`; when
`CollectAllOutput` is set, replace the three buffers with fresh ones and let
the attempt's output fill them (stdout chunks to `stdoutBuffer`, stderr chunks
to `stderrBuffer`, the copier-scheduled merge to `combinedBuffer`); always
append the attempt's stream output to the caller-supplied writers when
present; finally, if `cmd.Run()` returned an error, set `exitCode` from
`cmd.ProcessState` when available and to -1 otherwise. Returns the error of
`cmd.Run()`. -/
def runAttempt (c : Spec) (b : AttemptBehavior) (st : RunState) :
    RunState × Option GoError :=
  ({ stdoutBuf := if c.collectAllOutput then outWrites b else st.stdoutBuf,
     stderrBuf := if c.collectAllOutput then errWrites b else st.stderrBuf,
     combinedBuf := if c.collectAllOutput then combinedChunks b else st.combinedBuf,
     extraOut := if c.hasStdOut then st.extraOut ++ outWrites b else st.extraOut,
     extraErr := if c.hasStdErr then st.extraErr ++ errWrites b else st.extraErr,
     attempts := st.attempts + 1,
     exitCode :=
       match b.runErr with
       | none => 0
       | some _ => if b.processStateAvailable then b.processExitCode else -1 },
   b.runErr)

/-- `fmt.Errorf("error running cmd %s \n %s: %w", app, txt, inner)` as used by
`withRetries`: a wrapping error whose message embeds the text and the wrapped
error's message. -/
def wrapCmdError (app txt : String) (inner : GoError) : GoError :=
  GoError.wrapf ("error running cmd " ++ app ++ " \n " ++ txt ++ ": " ++ goErrorMessage inner)
    inner

/-- The error returned by `withRetries` when the loop exhausts all attempts
(cmder.go line 376): wraps `context.DeadlineExceeded` with the text
"timeout and max retries exceeded". -/
def retriesExhaustedError (app : String) : GoError :=
  wrapCmdError app "timeout and max retries exceeded" GoError.deadlineExceeded

/-- The error returned by `withRetries` on a non-retryable failure when the
job-level timer has fired (cmder.go line 365): wraps
`context.DeadlineExceeded` with the text "timeout". -/
def jobTimeoutError (app : String) : GoError :=
  wrapCmdError app "timeout" GoError.deadlineExceeded

/-- The retry loop of `withRetries` (cmder.go lines 307-377) fused with the
processor closure of `Run`: `i` is the loop index, `fuel` the number of
remaining iterations (`c.Retries + 1 - i`). Each iteration runs one attempt;
on success return nil; on a failure approved by the retry filter continue; on
a non-approved failure return the job-timeout wrap when the `jobTimedOut`
flag reads true and the raw wrap otherwise; when the iterations are exhausted
return the retries-exhausted deadline error. -/
def withRetriesLoop (c : Spec) (obs : Nat → AttemptBehavior) :
    Nat → Nat → RunState → RunState × Option GoError
  | _, 0, st => (st, some (retriesExhaustedError c.app))
  | i, fuel + 1, st =>
      let b := obs i
      let step := runAttempt c b st
      match step.2 with
      | none => (step.1, none)
      | some e =>
          if c.retryFilter e b.attemptTimedOut then
            withRetriesLoop c obs (i + 1) fuel step.1
          else if b.jobTimedOut then
            (step.1, some (jobTimeoutError c.app))
          else
            (step.1, some (wrapCmdError c.app (goErrorMessage e) e))

/-- `withRetries` (cmder.go lines 291-377) applied to the `Run` processor:
iterate the loop from index 0 with `Retries + 1` permitted iterations. -/
def withRetries (c : Spec) (obs : Nat → AttemptBehavior) : RunState × Option GoError :=
  withRetriesLoop c obs 0 (c.retries + 1) initialRunState

/-- cmder's `Result` (cmder.go lines 42-49): the captured texts, the terminal
error, the attempt count and the exit code. -/
structure Result where
  stdOut : String
  stdErr : String
  combined : String
  err : Option GoError
  attempts : Nat
  exitCode : Int

/-- `Run` (cmder.go lines 205-275): run `withRetries` with the processor
closure and package the final buffer contents, error, attempt count and exit
code into a `Result`. -/
def Run (c : Spec) (obs : Nat → AttemptBehavior) : Result :=
  let final := withRetries c obs
  { stdOut := concatAll final.1.stdoutBuf,
    stdErr := concatAll final.1.stderrBuf,
    combined := concatAll final.1.combinedBuf,
    err := final.2,
    attempts := final.1.attempts,
    exitCode := final.1.exitCode }

/-- The full text delivered to the caller-supplied `c.StdOut` writer over the
whole invocation (this writer is never reset between attempts). -/
def runExtraStdOut (c : Spec) (obs : Nat → AttemptBehavior) : String :=
  concatAll (withRetries c obs).1.extraOut

/-- The full text delivered to the caller-supplied `c.StdErr` writer over the
whole invocation. -/
def runExtraStdErr (c : Spec) (obs : Nat → AttemptBehavior) : String :=
  concatAll (withRetries c obs).1.extraErr

/-! ### Basic reduction lemmas for the retry loop -/

theorem runAttempt_snd (c : Spec) (b : AttemptBehavior) (st : RunState) :
    (runAttempt c b st).2 = b.runErr := rfl

theorem runAttempt_attempts (c : Spec) (b : AttemptBehavior) (st : RunState) :
    (runAttempt c b st).1.attempts = st.attempts + 1 := rfl

theorem errorsIs_wrap_deadline (app txt : String) :
    errorsIs (wrapCmdError app txt GoError.deadlineExceeded) GoError.deadlineExceeded = true := rfl

theorem TimeoutRetryFilter_of_attemptTimeout (e : GoError) :
    TimeoutRetryFilter e true = true := by
  by_cases h : errorsIs e GoError.deadlineExceeded = true <;> simp [TimeoutRetryFilter, h]

theorem withRetriesLoop_zero (c : Spec) (obs : Nat → AttemptBehavior) (i : Nat) (st : RunState) :
    withRetriesLoop c obs i 0 st = (st, some (retriesExhaustedError c.app)) := rfl

theorem withRetriesLoop_succ_ok (c : Spec) (obs : Nat → AttemptBehavior) (i fuel : Nat)
    (st : RunState) (h : (obs i).runErr = none) :
    withRetriesLoop c obs i (fuel + 1) st = ((runAttempt c (obs i) st).1, none) := by
  simp only [withRetriesLoop, runAttempt_snd, h]

theorem withRetriesLoop_succ_retry (c : Spec) (obs : Nat → AttemptBehavior) (i fuel : Nat)
    (st : RunState) (e : GoError) (h : (obs i).runErr = some e)
    (hf : c.retryFilter e (obs i).attemptTimedOut = true) :
    withRetriesLoop c obs i (fuel + 1) st =
      withRetriesLoop c obs (i + 1) fuel (runAttempt c (obs i) st).1 := by
  simp only [withRetriesLoop, runAttempt_snd, h, hf, if_true]

theorem withRetriesLoop_succ_stop_jobTimeout (c : Spec) (obs : Nat → AttemptBehavior)
    (i fuel : Nat) (st : RunState) (e : GoError) (h : (obs i).runErr = some e)
    (hf : c.retryFilter e (obs i).attemptTimedOut = false)
    (hj : (obs i).jobTimedOut = true) :
    withRetriesLoop c obs i (fuel + 1) st =
      ((runAttempt c (obs i) st).1, some (jobTimeoutError c.app)) := by
  simp only [withRetriesLoop, runAttempt_snd, h, hf, hj, Bool.false_eq_true, if_false, if_true]

theorem withRetriesLoop_succ_stop_raw (c : Spec) (obs : Nat → AttemptBehavior)
    (i fuel : Nat) (st : RunState) (e : GoError) (h : (obs i).runErr = some e)
    (hf : c.retryFilter e (obs i).attemptTimedOut = false)
    (hj : (obs i).jobTimedOut = false) :
    withRetriesLoop c obs i (fuel + 1) st =
      ((runAttempt c (obs i) st).1, some (wrapCmdError c.app (goErrorMessage e) e)) := by
  simp only [withRetriesLoop, runAttempt_snd, h, hf, hj, Bool.false_eq_true, if_false]

/-! ### Exhaustion lemma: every attempt fails and is approved for retry -/

theorem withRetriesLoop_exhausts (c : Spec) (obs : Nat → AttemptBehavior)
    (hfilt : ∀ j e, (obs j).runErr = some e → c.retryFilter e (obs j).attemptTimedOut = true)
    (herr : ∀ j, ((obs j).runErr).isSome = true) :
    ∀ fuel i st,
      (withRetriesLoop c obs i fuel st).1.attempts = st.attempts + fuel ∧
      (withRetriesLoop c obs i fuel st).2 = some (retriesExhaustedError c.app) := by
  intro fuel
  induction fuel with
  | zero => intro i st; simp [withRetriesLoop_zero]
  | succ n ih =>
    intro i st
    obtain ⟨e, he⟩ := Option.isSome_iff_exists.mp (herr i)
    have hf := hfilt i e he
    rw [withRetriesLoop_succ_retry c obs i n st e he hf]
    have h := ih (i + 1) (runAttempt c (obs i) st).1
    refine ⟨?_, h.2⟩
    rw [h.1, runAttempt_attempts]
    omega

/-! ### Claim C3 -/

/-- C3: for every error `err` and flag `isAttemptTimeout`, the default retry
predicate (`DefaultRetryFilter`, i.e. `TimeoutRetryFilter`) returns true
exactly when `err` is or wraps `context.DeadlineExceeded` or the flag is
true; in particular it returns false for a non-zero process exit with no
timeout. -/
theorem claim3_default_filter_timeout_only :
    (∀ (e : GoError) (t : Bool),
      DefaultRetryFilter e t = (errorsIs e GoError.deadlineExceeded || t)) ∧
    (∀ k : Int, DefaultRetryFilter (GoError.exitError k) false = false) := by
  constructor
  · intro e t
    cases h : errorsIs e GoError.deadlineExceeded <;>
      cases t <;> simp [DefaultRetryFilter, TimeoutRetryFilter, h]
  · intro k; rfl

/-! ### Claim C1 -/

/-- C1: with the default retry predicate, a command whose every attempt fails
with the per-attempt timeout flag set performs exactly `Retries + 1` attempts
and the terminal error is the retries-exhausted error, which wraps
`context.DeadlineExceeded`. -/
theorem claim1_attempt_timeouts_exhaust_all_retries (c : Spec) (obs : Nat → AttemptBehavior)
    (hfilter : c.retryFilter = DefaultRetryFilter)
    (herr : ∀ j, ((obs j).runErr).isSome = true)
    (htimeout : ∀ j, (obs j).attemptTimedOut = true) :
    (Run c obs).attempts = c.retries + 1 ∧
    (Run c obs).err = some (retriesExhaustedError c.app) ∧
    errorsIs (retriesExhaustedError c.app) GoError.deadlineExceeded = true := by
  have hfilt : ∀ j e, (obs j).runErr = some e →
      c.retryFilter e (obs j).attemptTimedOut = true := by
    intro j e _
    rw [hfilter, htimeout j]
    exact TimeoutRetryFilter_of_attemptTimeout e
  have h := withRetriesLoop_exhausts c obs hfilt herr (c.retries + 1) 0 initialRunState
  refine ⟨?_, ?_, errorsIs_wrap_deadline _ _⟩
  · show (withRetriesLoop c obs 0 (c.retries + 1) initialRunState).1.attempts = c.retries + 1
    rw [h.1]
    simp [initialRunState]
  · exact h.2

/-- Spec used by the C1 witness: retries = 2, default filter. -/
def claim1WSpec : Spec :=
  { app := "sleep", retries := 2, retryFilter := DefaultRetryFilter,
    collectAllOutput := true, hasStdOut := false, hasStdErr := false }

/-- Behaviour used by the C1 witness: every attempt is killed by its attempt
timeout (`cmd.Run` reports the kill, `attemptTimedOut` reads true). -/
def claim1WObs : Nat → AttemptBehavior := fun _ =>
  { runErr := some (GoError.startError "signal: killed"),
    processStateAvailable := true, processExitCode := -1,
    attemptTimedOut := true, jobTimedOut := false, writes := [], sched := [] }

theorem claim1_witness :
    (Run claim1WSpec claim1WObs).attempts = 3 ∧
    (Run claim1WSpec claim1WObs).err = some (retriesExhaustedError "sleep") := by
  have h := claim1_attempt_timeouts_exhaust_all_retries claim1WSpec claim1WObs rfl
    (fun _ => rfl) (fun _ => rfl)
  exact ⟨h.1, h.2.1⟩

/-! ### Claim C2 -/

theorem withRetriesLoop_deadline_of_jobTimedOut (c : Spec) (obs : Nat → AttemptBehavior) :
    ∀ fuel i st, st.attempts = i →
      ∀ e, (withRetriesLoop c obs i fuel st).2 = some e →
        (obs ((withRetriesLoop c obs i fuel st).1.attempts - 1)).jobTimedOut = true →
        errorsIs e GoError.deadlineExceeded = true := by
  intro fuel
  induction fuel with
  | zero =>
    intro i st _ e he _
    rw [withRetriesLoop_zero] at he
    cases he
    exact errorsIs_wrap_deadline _ _
  | succ n ih =>
    intro i st hst e he hj
    cases hrun : (obs i).runErr with
    | none =>
      rw [withRetriesLoop_succ_ok c obs i n st hrun] at he
      exact absurd he (by simp)
    | some e0 =>
      cases hf : c.retryFilter e0 (obs i).attemptTimedOut with
      | true =>
        rw [withRetriesLoop_succ_retry c obs i n st e0 hrun hf] at he hj
        exact ih (i + 1) (runAttempt c (obs i) st).1
          (by rw [runAttempt_attempts, hst]) e he hj
      | false =>
        cases hj0 : (obs i).jobTimedOut with
        | true =>
          rw [withRetriesLoop_succ_stop_jobTimeout c obs i n st e0 hrun hf hj0] at he
          cases he
          exact errorsIs_wrap_deadline _ _
        | false =>
          rw [withRetriesLoop_succ_stop_raw c obs i n st e0 hrun hf hj0] at hj
          rw [runAttempt_attempts, hst] at hj
          simp at hj
          rw [hj] at hj0
          cases hj0

/-- C2: whenever the terminal outcome of `Run` is a failure and the job-level
timeout flag read at the attempt on which the loop stopped is true, the
returned error wraps `context.DeadlineExceeded`, whatever the raw error of
that last attempt was. -/
theorem claim2_job_timeout_takes_precedence (c : Spec) (obs : Nat → AttemptBehavior)
    (e : GoError)
    (herr : (Run c obs).err = some e)
    (hjob : (obs ((Run c obs).attempts - 1)).jobTimedOut = true) :
    errorsIs e GoError.deadlineExceeded = true :=
  withRetriesLoop_deadline_of_jobTimedOut c obs (c.retries + 1) 0 initialRunState rfl
    e herr hjob

/-- Spec used by the C2 witness: no retries, default filter. -/
def claim2WSpec : Spec :=
  { app := "curl", retries := 0, retryFilter := DefaultRetryFilter,
    collectAllOutput := true, hasStdOut := false, hasStdErr := false }

/-- Behaviour used by the C2 witness: the single attempt exits with status 7
(no attempt timeout), while the job-level timer has already fired. -/
def claim2WObs : Nat → AttemptBehavior := fun _ =>
  { runErr := some (GoError.exitError 7),
    processStateAvailable := true, processExitCode := 7,
    attemptTimedOut := false, jobTimedOut := true, writes := [], sched := [] }

theorem claim2_witness :
    errorsIs (jobTimeoutError "curl") GoError.deadlineExceeded = true :=
  claim2_job_timeout_takes_precedence claim2WSpec claim2WObs (jobTimeoutError "curl") rfl rfl

/-! ### Claim C4 -/

/-- C4: under the default retry predicate, a first attempt that exits with a
non-zero status `k` and no timeout (ProcessState available, neither timeout
flag set) ends the invocation at once: one attempt, exit code `k`, for any
configured retry count. -/
theorem claim4_nonzero_exit_not_retried (c : Spec) (obs : Nat → AttemptBehavior) (k : Int)
    (hfilter : c.retryFilter = DefaultRetryFilter)
    (_hk : k ≠ 0)
    (h0 : (obs 0).runErr = some (GoError.exitError k))
    (ht : (obs 0).attemptTimedOut = false)
    (hj : (obs 0).jobTimedOut = false)
    (hp : (obs 0).processStateAvailable = true)
    (hc : (obs 0).processExitCode = k) :
    (Run c obs).attempts = 1 ∧ (Run c obs).exitCode = k := by
  have hf : c.retryFilter (GoError.exitError k) (obs 0).attemptTimedOut = false := by
    rw [hfilter, ht]; rfl
  have hstep := withRetriesLoop_succ_stop_raw c obs 0 c.retries initialRunState
    (GoError.exitError k) h0 hf hj
  constructor
  · show (withRetriesLoop c obs 0 (c.retries + 1) initialRunState).1.attempts = 1
    rw [hstep, runAttempt_attempts]
    rfl
  · show (withRetriesLoop c obs 0 (c.retries + 1) initialRunState).1.exitCode = k
    rw [hstep]
    simp [runAttempt, h0, hp, hc]

/-- Spec used by the C4 witness: retries = 5, default filter. -/
def claim4WSpec : Spec :=
  { app := "false", retries := 5, retryFilter := DefaultRetryFilter,
    collectAllOutput := true, hasStdOut := false, hasStdErr := false }

/-- Behaviour used by the C4 witness: the first attempt exits cleanly with
status 1, no timeout of any kind. -/
def claim4WObs : Nat → AttemptBehavior := fun _ =>
  { runErr := some (GoError.exitError 1),
    processStateAvailable := true, processExitCode := 1,
    attemptTimedOut := false, jobTimedOut := false, writes := [], sched := [] }

theorem claim4_witness :
    (Run claim4WSpec claim4WObs).attempts = 1 ∧ (Run claim4WSpec claim4WObs).exitCode = 1 :=
  claim4_nonzero_exit_not_retried claim4WSpec claim4WObs 1 rfl (by decide) rfl rfl rfl rfl rfl

/-! ### Claim C5 -/

/-- A retry filter that always approves a retry, as a caller may supply. -/
def alwaysRetryFilter : GoError → Bool → Bool := fun _ _ => true

/-- Spec of the C5 counterexample: a caller-supplied always-true retry
predicate and one permitted retry. -/
def claim5CexSpec : Spec :=
  { app := "abc123", retries := 1, retryFilter := alwaysRetryFilter,
    collectAllOutput := true, hasStdOut := false, hasStdErr := false }

/-- Behaviour of the C5 counterexample: every attempt fails to start
(executable missing: `cmd.Run` returns the start error, `cmd.ProcessState` is
nil, no timeout flag set). -/
def claim5CexObs : Nat → AttemptBehavior := fun _ =>
  { runErr := some (GoError.startError "exec: abc123: executable file not found in PATH"),
    processStateAvailable := false, processExitCode := 0,
    attemptTimedOut := false, jobTimedOut := false, writes := [], sched := [] }

/-- C5 counterexample: with an always-true retry predicate, a start failure IS
retried — the loop consults the caller's predicate on a start failure like on
any other error (cmder.go line 358), so with retries = 1 the invocation
performs 2 attempts, not the single attempt the claim promises for every
predicate. -/
theorem claim5_counterexample :
    (Run claim5CexSpec claim5CexObs).attempts = 2 ∧
    (Run claim5CexSpec claim5CexObs).attempts ≠ 1 := by
  constructor <;> decide

/-- C5 amended: under the DEFAULT retry predicate a start failure is not
retried: a first attempt whose `cmd.Run` error is a start failure (which does
not wrap `context.DeadlineExceeded`) with the attempt-timeout flag unset ends
the invocation after exactly one attempt, whatever the retry count. -/
theorem claim5_amended_start_failure_single_attempt (c : Spec) (obs : Nat → AttemptBehavior)
    (s : String)
    (hfilter : c.retryFilter = DefaultRetryFilter)
    (h0 : (obs 0).runErr = some (GoError.startError s))
    (ht : (obs 0).attemptTimedOut = false) :
    (Run c obs).attempts = 1 := by
  have hf : c.retryFilter (GoError.startError s) (obs 0).attemptTimedOut = false := by
    rw [hfilter, ht]; rfl
  cases hj : (obs 0).jobTimedOut with
  | true =>
    have hstep := withRetriesLoop_succ_stop_jobTimeout c obs 0 c.retries initialRunState
      (GoError.startError s) h0 hf hj
    show (withRetriesLoop c obs 0 (c.retries + 1) initialRunState).1.attempts = 1
    rw [hstep, runAttempt_attempts]; rfl
  | false =>
    have hstep := withRetriesLoop_succ_stop_raw c obs 0 c.retries initialRunState
      (GoError.startError s) h0 hf hj
    show (withRetriesLoop c obs 0 (c.retries + 1) initialRunState).1.attempts = 1
    rw [hstep, runAttempt_attempts]; rfl

/-- Spec used by the C5 witness: default filter, 3 permitted retries. -/
def claim5WSpec : Spec :=
  { app := "abc123", retries := 3, retryFilter := DefaultRetryFilter,
    collectAllOutput := true, hasStdOut := false, hasStdErr := false }

theorem claim5_witness : (Run claim5WSpec claim5CexObs).attempts = 1 :=
  claim5_amended_start_failure_single_attempt claim5WSpec claim5CexObs
    "exec: abc123: executable file not found in PATH" rfl rfl rfl

/-! ### Claim C10 -/

/-- The three capture buffers hold exactly the output of attempt `n - 1`
(attempt numbering is 1-based in `Result.Attempts`). -/
def collectedFrom (obs : Nat → AttemptBehavior) (st : RunState) (n : Nat) : Prop :=
  st.stdoutBuf = outWrites (obs (n - 1)) ∧
  st.stderrBuf = errWrites (obs (n - 1)) ∧
  st.combinedBuf = combinedChunks (obs (n - 1))

theorem withRetriesLoop_collects_last_attempt (c : Spec) (obs : Nat → AttemptBehavior)
    (hcollect : c.collectAllOutput = true) :
    ∀ fuel i st, st.attempts = i →
      (collectedFrom obs st i ∨ 1 ≤ fuel) →
      collectedFrom obs (withRetriesLoop c obs i fuel st).1
        (withRetriesLoop c obs i fuel st).1.attempts := by
  intro fuel
  induction fuel with
  | zero =>
    intro i st hst h
    rcases h with h | h
    · rw [withRetriesLoop_zero]
      rw [hst]
      exact h
    · omega
  | succ n ih =>
    intro i st hst _
    have h1 : (runAttempt c (obs i) st).1.attempts = i + 1 := by
      rw [runAttempt_attempts, hst]
    have hst1 : collectedFrom obs (runAttempt c (obs i) st).1
        ((runAttempt c (obs i) st).1.attempts) := by
      rw [h1]
      refine ⟨?_, ?_, ?_⟩ <;> simp [runAttempt, hcollect]
    cases hrun : (obs i).runErr with
    | none =>
      rw [withRetriesLoop_succ_ok c obs i n st hrun]
      exact hst1
    | some e0 =>
      cases hf : c.retryFilter e0 (obs i).attemptTimedOut with
      | true =>
        rw [withRetriesLoop_succ_retry c obs i n st e0 hrun hf]
        exact ih (i + 1) (runAttempt c (obs i) st).1 h1 (Or.inl (h1 ▸ hst1))
      | false =>
        cases hj : (obs i).jobTimedOut with
        | true =>
          rw [withRetriesLoop_succ_stop_jobTimeout c obs i n st e0 hrun hf hj]
          exact hst1
        | false =>
          rw [withRetriesLoop_succ_stop_raw c obs i n st e0 hrun hf hj]
          exact hst1

/-- C10: with output collection enabled, the capture buffers are replaced with
fresh ones at the start of every attempt, so the final `Result` texts are
exactly the output of the final attempt (index `Attempts - 1`); nothing
written by earlier attempts survives into the `Result`. -/
theorem claim10_result_is_final_attempt_output (c : Spec) (obs : Nat → AttemptBehavior)
    (hcollect : c.collectAllOutput = true) :
    (Run c obs).stdOut = concatAll (outWrites (obs ((Run c obs).attempts - 1))) ∧
    (Run c obs).stdErr = concatAll (errWrites (obs ((Run c obs).attempts - 1))) ∧
    (Run c obs).combined = concatAll (combinedChunks (obs ((Run c obs).attempts - 1))) := by
  have h := withRetriesLoop_collects_last_attempt c obs hcollect (c.retries + 1) 0
    initialRunState rfl (Or.inr (by omega))
  exact ⟨congrArg concatAll h.1, congrArg concatAll h.2.1, congrArg concatAll h.2.2⟩

/-- Spec used by the C10 witness: one retry, default filter, collection on. -/
def claim10WSpec : Spec :=
  { app := "build", retries := 1, retryFilter := DefaultRetryFilter,
    collectAllOutput := true, hasStdOut := false, hasStdErr := false }

/-- Behaviour used by the C10 witness: the first attempt times out after
writing "old" to stdout and is retried; the second attempt succeeds after
writing "final". -/
def claim10WObs : Nat → AttemptBehavior := fun j =>
  if j = 0 then
    { runErr := some (GoError.startError "signal: killed"),
      processStateAvailable := true, processExitCode := -1,
      attemptTimedOut := true, jobTimedOut := false,
      writes := [(OutStream.stdout, "old")], sched := [OutStream.stdout] }
  else
    { runErr := none, processStateAvailable := true, processExitCode := 0,
      attemptTimedOut := false, jobTimedOut := false,
      writes := [(OutStream.stdout, "final")], sched := [OutStream.stdout] }

theorem claim10_witness :
    (Run claim10WSpec claim10WObs).attempts = 2 ∧
    (Run claim10WSpec claim10WObs).stdOut = "final" := by
  have h := claim10_result_is_final_attempt_output claim10WSpec claim10WObs rfl
  refine ⟨by decide, ?_⟩
  rw [h.1]
  decide

/-! ### Claim C8 -/

/-- The concatenated per-attempt chunk lists of attempts `i .. i + n - 1`,
with `f` giving one attempt's chunks. -/
def chunksRange (f : Nat → List String) : Nat → Nat → List String
  | _, 0 => []
  | i, n + 1 => f i ++ chunksRange f (i + 1) n

theorem withRetriesLoop_no_collect (c : Spec) (obs : Nat → AttemptBehavior)
    (hcollect : c.collectAllOutput = false)
    (ho : c.hasStdOut = true) (he : c.hasStdErr = true) :
    ∀ fuel i st,
      ∃ n, (withRetriesLoop c obs i fuel st).1.attempts = st.attempts + n ∧
        (withRetriesLoop c obs i fuel st).1.stdoutBuf = st.stdoutBuf ∧
        (withRetriesLoop c obs i fuel st).1.stderrBuf = st.stderrBuf ∧
        (withRetriesLoop c obs i fuel st).1.combinedBuf = st.combinedBuf ∧
        (withRetriesLoop c obs i fuel st).1.extraOut =
          st.extraOut ++ chunksRange (fun j => outWrites (obs j)) i n ∧
        (withRetriesLoop c obs i fuel st).1.extraErr =
          st.extraErr ++ chunksRange (fun j => errWrites (obs j)) i n := by
  intro fuel
  induction fuel with
  | zero =>
    intro i st
    exact ⟨0, by simp [withRetriesLoop_zero, chunksRange]⟩
  | succ n ih =>
    intro i st
    have hone :
        (runAttempt c (obs i) st).1.attempts = st.attempts + 1 ∧
        (runAttempt c (obs i) st).1.stdoutBuf = st.stdoutBuf ∧
        (runAttempt c (obs i) st).1.stderrBuf = st.stderrBuf ∧
        (runAttempt c (obs i) st).1.combinedBuf = st.combinedBuf ∧
        (runAttempt c (obs i) st).1.extraOut =
          st.extraOut ++ chunksRange (fun j => outWrites (obs j)) i 1 ∧
        (runAttempt c (obs i) st).1.extraErr =
          st.extraErr ++ chunksRange (fun j => errWrites (obs j)) i 1 := by
      refine ⟨rfl, ?_, ?_, ?_, ?_, ?_⟩ <;>
        simp [runAttempt, hcollect, ho, he, chunksRange]
    cases hrun : (obs i).runErr with
    | none =>
      rw [withRetriesLoop_succ_ok c obs i n st hrun]
      exact ⟨1, hone⟩
    | some e0 =>
      cases hf : c.retryFilter e0 (obs i).attemptTimedOut with
      | true =>
        rw [withRetriesLoop_succ_retry c obs i n st e0 hrun hf]
        obtain ⟨m, hm, hso, hse, hcb, heo, hee⟩ := ih (i + 1) (runAttempt c (obs i) st).1
        refine ⟨m + 1, ?_, ?_, ?_, ?_, ?_, ?_⟩
        · rw [hm, hone.1]; omega
        · rw [hso, hone.2.1]
        · rw [hse, hone.2.2.1]
        · rw [hcb, hone.2.2.2.1]
        · rw [heo, hone.2.2.2.2.1]
          simp [chunksRange, List.append_assoc]
        · rw [hee, hone.2.2.2.2.2]
          simp [chunksRange, List.append_assoc]
      | false =>
        cases hj : (obs i).jobTimedOut with
        | true =>
          rw [withRetriesLoop_succ_stop_jobTimeout c obs i n st e0 hrun hf hj]
          exact ⟨1, hone⟩
        | false =>
          rw [withRetriesLoop_succ_stop_raw c obs i n st e0 hrun hf hj]
          exact ⟨1, hone⟩

/-- C8: with `CollectAllOutput == false` the three captured `Result` texts are
empty whatever the process writes, while the caller-supplied `Spec.StdOut` /
`Spec.StdErr` writers receive the full per-stream output of every executed
attempt. -/
theorem claim8_collect_disabled_buffers_empty_extras_full (c : Spec)
    (obs : Nat → AttemptBehavior)
    (hcollect : c.collectAllOutput = false)
    (ho : c.hasStdOut = true) (he : c.hasStdErr = true) :
    (Run c obs).stdOut = "" ∧ (Run c obs).stdErr = "" ∧ (Run c obs).combined = "" ∧
    runExtraStdOut c obs =
      concatAll (chunksRange (fun j => outWrites (obs j)) 0 (Run c obs).attempts) ∧
    runExtraStdErr c obs =
      concatAll (chunksRange (fun j => errWrites (obs j)) 0 (Run c obs).attempts) := by
  obtain ⟨n, hn, hso, hse, hcb, heo, hee⟩ :=
    withRetriesLoop_no_collect c obs hcollect ho he (c.retries + 1) 0 initialRunState
  have hat : (Run c obs).attempts = n := by
    show (withRetriesLoop c obs 0 (c.retries + 1) initialRunState).1.attempts = n
    rw [hn]
    simp [initialRunState]
  refine ⟨?_, ?_, ?_, ?_, ?_⟩
  · show concatAll (withRetriesLoop c obs 0 (c.retries + 1) initialRunState).1.stdoutBuf = ""
    rw [hso]; rfl
  · show concatAll (withRetriesLoop c obs 0 (c.retries + 1) initialRunState).1.stderrBuf = ""
    rw [hse]; rfl
  · show concatAll (withRetriesLoop c obs 0 (c.retries + 1) initialRunState).1.combinedBuf = ""
    rw [hcb]; rfl
  · show concatAll (withRetriesLoop c obs 0 (c.retries + 1) initialRunState).1.extraOut = _
    rw [heo, hat]
    rfl
  · show concatAll (withRetriesLoop c obs 0 (c.retries + 1) initialRunState).1.extraErr = _
    rw [hee, hat]
    rfl

/-- Spec used by the C8 witness: collection disabled, both caller writers
present, no retries. -/
def claim8WSpec : Spec :=
  { app := "generate-data", retries := 0, retryFilter := DefaultRetryFilter,
    collectAllOutput := false, hasStdOut := true, hasStdErr := true }

/-- Behaviour used by the C8 witness: a successful attempt writing to both
streams. -/
def claim8WObs : Nat → AttemptBehavior := fun _ =>
  { runErr := none, processStateAvailable := true, processExitCode := 0,
    attemptTimedOut := false, jobTimedOut := false,
    writes := [(OutStream.stdout, "abc"), (OutStream.stderr, "e1"),
               (OutStream.stdout, "def")],
    sched := [OutStream.stdout, OutStream.stderr, OutStream.stdout] }

theorem claim8_witness :
    (Run claim8WSpec claim8WObs).stdOut = "" ∧
    (Run claim8WSpec claim8WObs).combined = "" ∧
    runExtraStdOut claim8WSpec claim8WObs = "abcdef" ∧
    runExtraStdErr claim8WSpec claim8WObs = "e1" := by
  have h := claim8_collect_disabled_buffers_empty_extras_full claim8WSpec claim8WObs rfl rfl rfl
  refine ⟨h.1, h.2.2.1, ?_, ?_⟩
  · rw [h.2.2.2.1]; decide
  · rw [h.2.2.2.2]; decide

/-! ### Claim C7 -/

/-- Spec of the C7 counterexample: collection enabled, no retries. -/
def claim7CexSpec : Spec :=
  { app := "writer", retries := 0, retryFilter := DefaultRetryFilter,
    collectAllOutput := true, hasStdOut := false, hasStdErr := false }

/-- Behaviour of the C7 counterexample: the process writes "out1" to stdout,
then "err1" to stderr, then "out2" to stdout and exits successfully; the two
pipe-copier goroutines happen to be scheduled so that the stderr copier
delivers its chunk to the combined buffer first — nothing in cmder prevents
this, since the copiers run concurrently and no lock or ordering point guards
`combinedBuffer` (cmder.go lines 225-247 install two distinct
`io.MultiWriter`s, one per stream). -/
def claim7CexObs : Nat → AttemptBehavior := fun _ =>
  { runErr := none, processStateAvailable := true, processExitCode := 0,
    attemptTimedOut := false, jobTimedOut := false,
    writes := [(OutStream.stdout, "out1"), (OutStream.stderr, "err1"),
               (OutStream.stdout, "out2")],
    sched := [OutStream.stderr, OutStream.stdout, OutStream.stdout] }

/-- C7 counterexample: for the out1 / err1 / out2 scenario of the claim there
is a legal copier schedule under which `Result.Combined` is "err1out1out2",
not the chronological "out1err1out2" — the fan-out does not serialize the two
streams under a single ordering point, so chronological order across streams
is not guaranteed. -/
theorem claim7_counterexample :
    (Run claim7CexSpec claim7CexObs).combined = "err1out1out2" ∧
    (Run claim7CexSpec claim7CexObs).combined ≠
      concatAll ((claim7CexObs 0).writes.map Prod.snd) := by
  constructor <;> decide

/-- C7 amended: the combined buffer receives some interleaving of the two
streams' chunk sequences — whatever schedule the two concurrently-driven
copiers realise, projecting the merged sequence onto stdout yields exactly
the stdout chunks in their original order, and likewise for stderr; only the
cross-stream order is schedule-dependent. -/
theorem claim7_amended_combined_interleaves_streams_in_order
    (sched : List OutStream) (outs errs : List String) :
    (mergeSched sched outs errs).filterMap
        (fun w => if w.1 = OutStream.stdout then some w.2 else none) = outs ∧
    (mergeSched sched outs errs).filterMap
        (fun w => if w.1 = OutStream.stderr then some w.2 else none) = errs := by
  induction sched generalizing outs errs with
  | nil =>
    constructor <;>
      simp [mergeSched, List.filterMap_append, List.filterMap_map, Function.comp_def]
  | cons s rest ih =>
    cases s with
    | stdout =>
      cases outs with
      | nil =>
        have h := ih [] errs
        simpa [mergeSched] using h
      | cons o os =>
        have h := ih os errs
        simp [mergeSched, h.1, h.2]
    | stderr =>
      cases errs with
      | nil =>
        have h := ih outs []
        simpa [mergeSched] using h
      | cons e es =>
        have h := ih outs es
        simp [mergeSched, h.1, h.2]

/-! ### Claim C9 -/

/-- A Go buffered channel of empty-struct signals: the number of buffered,
not-yet-received signals and the buffer capacity. -/
structure AliveChannel where
  pending : Nat
  capacity : Nat
deriving DecidableEq, Repr

/-- The capacity of the `aliveSignal` channel created by `withRetries`:
`make(chan any, 10)` (cmder.go line 315). -/
def aliveChannelCapacity : Nat := 10

/-- A send on a Go channel whose consumer is not receiving blocks exactly when
the buffer is full. -/
def sendWouldBlock (ch : AliveChannel) : Bool := ch.capacity ≤ ch.pending

/-- One `Write` call of the `SignalForwarderWriter` (internal/util, the
`NewSignalForwarderWriter` file) while the consumer goroutine is stopped: the
writer performs `ch <- struct\x7b\x7d\x7b\x7d` before returning. The send
buffers the signal when space remains; with no consumer a send into a full
buffer blocks forever, modelled as `none`. -/
def sfwWrite (ch : AliveChannel) : Option AliveChannel :=
  if sendWouldBlock ch then none else some { ch with pending := ch.pending + 1 }

/-- A sequence of `n` output writes through the tap with a stopped consumer:
`none` when some write blocks forever. -/
def sfwWrites : Nat → AliveChannel → Option AliveChannel
  | 0, ch => some ch
  | n + 1, ch =>
      match sfwWrite ch with
      | none => none
      | some ch1 => sfwWrites n ch1

/-- C9 counterexample: with the consumer of the liveness signals stopped (the
watcher goroutine of cmder.go lines 337-348 exits as soon as the attempt
context is done), a sequence of 11 process output writes blocks: the first 10
sends fill the capacity-10 buffer and the 11th send blocks forever, stalling
the output pipe — refuting that a write to the output tap never blocks
indefinitely for every write sequence. -/
theorem claim9_counterexample :
    sfwWrites 11 { pending := 0, capacity := aliveChannelCapacity } = none ∧
    sfwWrites 10 { pending := 0, capacity := aliveChannelCapacity } ≠ none := by
  constructor <;> decide

/-- C9 amended: the liveness sink is buffered with capacity 10, so emitting a
signal does not block as long as fewer than 10 signals are pending; any
sequence of writes that keeps the total unconsumed signals within the buffer
capacity completes without blocking, but a stopped consumer stalls the write
after the buffer fills. -/
theorem claim9_amended_buffered_sends_do_not_block (n : Nat) (ch : AliveChannel)
    (h : ch.pending + n ≤ ch.capacity) :
    sfwWrites n ch = some { pending := ch.pending + n, capacity := ch.capacity } := by
  induction n generalizing ch with
  | zero => rfl
  | succ m ih =>
    have hnb : sendWouldBlock ch = false := by
      simp [sendWouldBlock]
      omega
    have hstep : sfwWrite ch = some { ch with pending := ch.pending + 1 } := by
      simp [sfwWrite, hnb]
    show (match sfwWrite ch with
      | none => none
      | some ch1 => sfwWrites m ch1) = _
    rw [hstep]
    change sfwWrites m { pending := ch.pending + 1, capacity := ch.capacity } = _
    rw [ih { pending := ch.pending + 1, capacity := ch.capacity } (by simp; omega)]
    have harith : ch.pending + 1 + m = ch.pending + (m + 1) := by omega
    simp [harith]

theorem claim9_witness :
    sfwWrites 10 { pending := 0, capacity := aliveChannelCapacity } =
      some { pending := 10, capacity := aliveChannelCapacity } := by
  have h := claim9_amended_buffered_sends_do_not_block 10
    { pending := 0, capacity := aliveChannelCapacity } (by decide)
  simpa using h

/-! ### Claim C6 -/

/-- A Go slice header: backing-array id, offset, length, capacity. -/
structure GoSlice where
  arr : Nat
  off : Nat
  len : Nat
  cap : Nat
deriving DecidableEq, Repr

/-- The heap of backing arrays of the slice model; an array id is an index
into this list. -/
abbrev SliceHeap := List (List String)

/-- The elements a slice denotes: `len` elements of its backing array starting
at `off`. -/
def sliceView (h : SliceHeap) (s : GoSlice) : List String :=
  ((h.getD s.arr []).drop s.off).take s.len

/-- In-place write of `xs` into array `a` at positions `start ..`: how Go
`append` copies the new elements into the spare capacity of the existing
backing array (always within bounds: `append` only does this when the
capacity suffices). -/
def writeAt (a : List String) (start : Nat) (xs : List String) : List String :=
  a.take start ++ xs ++ a.drop (start + xs.length)

/-- Go `append(s, xs...)`: when the capacity suffices, write the new elements
into the spare capacity of the existing backing array — visible through every
other slice aliasing that array — and return a longer header over the same
array; otherwise allocate a fresh array. The Go runtime grows a small slice
to the larger of the needed length and twice the old capacity (modulo
size-class rounding, which can only add further spare capacity); unused
capacity holds zero values (""). -/
def goAppend (h : SliceHeap) (s : GoSlice) (xs : List String) : SliceHeap × GoSlice :=
  let need := s.len + xs.length
  if need ≤ s.cap then
    (h.set s.arr (writeAt (h.getD s.arr []) (s.off + s.len) xs),
     { s with len := need })
  else
    let newcap := max need (2 * s.cap)
    (h ++ [sliceView h s ++ xs ++ List.replicate (newcap - need) ""],
     { arr := h.length, off := 0, len := need, cap := newcap })

/-- The configuration value `Spec` of cmder.go (lines 18-40) at slice-model
level: the plain-value fields, with `Args` as a slice header into the heap.
The reader/writer/predicate fields (`StdIn`, `StdOut`, `StdErr`,
`RetryFilter`) are omitted here: they are references copied by value and
never written through by any mutator. -/
structure SpecValue where
  app : String
  args : GoSlice
  workingDirectory : String
  attemptTimeout : Int
  totalTimeout : Int
  resetAttemptTimeoutOnOutput : Bool
  retries : Int
  collectAllOutput : Bool
  verbose : Bool
deriving DecidableEq, Repr

/-- The `Spec` literal built by `New` (cmder.go lines 53-56) before the
variadic arguments are inspected: zero values, collection enabled, nil
`Args` (length and capacity 0). -/
def defaultSpecValue : SpecValue :=
  { app := "", args := { arr := 0, off := 0, len := 0, cap := 0 },
    workingDirectory := "", attemptTimeout := 0, totalTimeout := 0,
    resetAttemptTimeoutOnOutput := false, retries := 0,
    collectAllOutput := true, verbose := false }

/-- `New(appAndArgs...)` (cmder.go lines 51-67): the variadic slice is a fresh
backing array; `App` becomes its first element when present and `Args` the
sub-slice `appAndArgs[1:]` of the same array (length = capacity = n - 1) when
more than one element was given. -/
def specNew (h : SliceHeap) (appAndArgs : List String) : SliceHeap × SpecValue :=
  let h1 := h ++ [appAndArgs]
  let r0 := defaultSpecValue
  let r1 := if 0 < appAndArgs.length then { r0 with app := appAndArgs.headD "" } else r0
  let r2 :=
    if 1 < appAndArgs.length then
      { r1 with
          args := { arr := h.length, off := 1, len := appAndArgs.length - 1,
                    cap := appAndArgs.length - 1 } }
    else r1
  (h1, r2)

/-- `WithExtraArgs` (cmder.go lines 153-156):
`c.Args = append(c.Args, extraArgs...)` on the copied receiver — the append
shares the receiver's backing array whenever its capacity allows. -/
def WithExtraArgs (h : SliceHeap) (c : SpecValue) (extraArgs : List String) :
    SliceHeap × SpecValue :=
  let r := goAppend h c.args extraArgs
  (r.1, { c with args := r.2 })

/-- `WithArgs` (cmder.go lines 147-150): replaces `Args` with the fresh
variadic array. -/
def WithArgs (h : SliceHeap) (c : SpecValue) (newArgs : List String) :
    SliceHeap × SpecValue :=
  (h ++ [newArgs],
   { c with
       args := { arr := h.length, off := 0, len := newArgs.length,
                 cap := newArgs.length } })

/-- `WithTotalTimeout` (cmder.go lines 93-96): field update on the copied
receiver. -/
def WithTotalTimeout (c : SpecValue) (timeout : Int) : SpecValue :=
  { c with totalTimeout := timeout }

/-- `WithRetries` (cmder.go lines 165-168): field update on the copied
receiver. -/
def WithRetries (c : SpecValue) (n : Int) : SpecValue :=
  { c with retries := n }

/-- Failing input of C6: `base := New("app","a","b","c","d")` (Args length 4,
capacity 4). -/
def claim6Base : SliceHeap × SpecValue := specNew [] ["app", "a", "b", "c", "d"]

/-- `d1 := base.WithExtraArgs("e")`: the append reallocates (need 5 > cap 4)
to a backing array of capacity 8, leaving 3 spare slots. -/
def claim6Derived1 : SliceHeap × SpecValue :=
  WithExtraArgs claim6Base.1 claim6Base.2 ["e"]

/-- `d2 := d1.WithExtraArgs("f")`: the append writes "f" into d1's spare
capacity, in place. -/
def claim6Derived2 : SliceHeap × SpecValue :=
  WithExtraArgs claim6Derived1.1 claim6Derived1.2 ["f"]

/-- `d3 := d1.WithExtraArgs("g")`: the append writes "g" into the same spare
slot of the same backing array that d2 aliases. -/
def claim6Derived3 : SliceHeap × SpecValue :=
  WithExtraArgs claim6Derived2.1 claim6Derived1.2 ["g"]

/-- C6 at the failing input: after `base := New("app","a","b","c","d")`,
`d1 := base.WithExtraArgs("e")`, `d2 := d1.WithExtraArgs("f")`, the further
derivation `d3 := d1.WithExtraArgs("g")` overwrites the backing-array slot
that `d2`'s argument list aliases: `d2.Args` reads a-b-c-d-e-f before and
a-b-c-d-e-g after, so a previously derived Spec is observably mutated —
contradicting the claim (and the repository's own architecture
documentation) that with-X mutators never mutate shared state. The base
Spec's own argument list does stay unchanged. -/
theorem claim6_with_extra_args_mutates_sibling :
    sliceView claim6Derived2.1 claim6Derived2.2.args = ["a", "b", "c", "d", "e", "f"] ∧
    sliceView claim6Derived3.1 claim6Derived2.2.args = ["a", "b", "c", "d", "e", "g"] ∧
    sliceView claim6Derived3.1 claim6Derived2.2.args ≠
      sliceView claim6Derived2.1 claim6Derived2.2.args ∧
    sliceView claim6Derived3.1 claim6Base.2.args = sliceView claim6Base.1 claim6Base.2.args := by
  refine ⟨?_, ?_, ?_, ?_⟩ <;> decide
